import Mathlib

/-!
Verification of the ladder-strategy trading engine of We_win_all_algo.

Prices, percentages and P&L amounts (Python floats in the source) are modelled
as rationals; quantities are integers; wall-clock times are natural numbers.
Definitions marked "Embedded from src" translate code that is present under
src/; definitions whose doc comment starts with "Modelled from the spec"
translate the ladder engine functions (process_ladder_strategy,
start_buy_ladder, start_sell_ladder) that are imported by
src/trading/views.py, src/trading/tasks.py and
src/trading/kite_engine/data_handler.py but whose module body is not present
under src/, faithful to spec.md sections 3, 4.1, 4.2, 4.3 and 6.
-/

namespace WeWinAll

/-- Embedded from src/trading/models.py, LadderState.MODE_CHOICES
(BUY, SELL, STOPPED). -/
inductive Mode where
  | BUY
  | SELL
  | STOPPED
deriving DecidableEq

/-- Embedded from src/trading/models.py, TradeLog.trade_type choices. -/
inductive TradeType where
  | BUY
  | SELL
deriving DecidableEq

/-- Embedded from src/trading/models.py, TradeLog.status choices. -/
inductive TradeStatus where
  | OPEN
  | CLOSED
  | CANCELLED
deriving DecidableEq

/-- Embedded from src/trading/models.py, LadderState.ENTRY_TYPE_CHOICES. -/
inductive EntryType where
  | QUANTITY
  | CAPITAL
deriving DecidableEq

/-- Embedded from src/trading/models.py, TradeSymbol.qty_type choices. -/
inductive QtyType where
  | ABS
  | FORMULA
deriving DecidableEq

/-- The two entries of the TradeLog.targets JSON dict that
check_and_manage_client reads (keys TSL_Y1_BUY and TSL_Y1_SELL,
strategy_manager.py lines 186-187; a missing key is read as 0, so a record
built for a trade whose dict lacks the key carries the value 0 here). -/
structure TargetLevels where
  tsl_y1_buy : ℚ
  tsl_y1_sell : ℚ
deriving DecidableEq

/-- Embedded from src/trading/models.py, TradeLog (the fields read or written
by the engine code; exit_time is a timestamp modelled as a natural number,
entry_order_id as an optional numeric order id, none for blank). -/
structure TradeLog where
  trade_type : TradeType
  quantity : ℤ
  status : TradeStatus := TradeStatus.OPEN
  entry_price : ℚ
  exit_price : Option ℚ := none
  exit_time : Option ℕ := none
  realized_pnl : ℚ := 0
  targets : TargetLevels
  entry_order_id : Option ℕ := none
deriving DecidableEq

/-- Embedded from src/trading/models.py, LadderState (defaults as in the
model's field declarations).  The field max_levels is Modelled from the spec:
spec.md section 3 lists max_levels as a per-ladder configuration ceiling used
by the (missing) ladder engine, but the persisted LadderState model in
models.py declares no such column; it is carried here as an engine
configuration field of the ladder record, with a modelled default of 5. -/
structure LadderState where
  is_active : Bool := false
  current_mode : Mode := Mode.STOPPED
  entry_type : EntryType := EntryType.CAPITAL
  fixed_quantity : ℤ := 0
  trade_capital : ℚ := 10000
  entry_price : ℚ := 0
  last_add_price : ℚ := 0
  extreme_price : ℚ := 0
  current_qty : ℤ := 0
  level_count : ℤ := 0
  increase_pct : ℚ := 1
  tsl_pct : ℚ := 1
  max_levels : ℤ := 5
deriving DecidableEq

/-- A LadderState record as it is first created by
LadderState.objects.get_or_create (all model defaults). -/
def initialLadder : LadderState := {}

/-- Embedded from src/trading/models.py, ClientAccount (the fields that
check_and_manage_client reads; the access token is modelled by whether one is
present, no_new_entry_after as minutes). -/
structure ClientAccount where
  is_live_trading_enabled : Bool
  has_access_token : Bool
  max_daily_profit : ℚ
  max_daily_loss : ℚ
  no_new_entry_after : ℕ
deriving DecidableEq

/-- An order request sent to place_kite_order: transaction type, quantity and
the price argument (0 for market entries, last_price on square-off calls). -/
structure KiteOrder where
  side : TradeType
  quantity : ℤ
  price : ℚ
deriving DecidableEq

/-- Embedded from src/trading/kite_engine/strategy_manager.py lines 72-78,
calculate_quantity: both the ABS and the FORMULA branch return
absolute_quantity (the formula branch is unimplemented in the source). -/
def calculate_quantity (qty_type : QtyType) (absolute_quantity : ℤ) : ℤ :=
  match qty_type with
  | QtyType.ABS => absolute_quantity
  | QtyType.FORMULA => absolute_quantity

/-- Embedded from src/trading/kite_engine/strategy_manager.py lines 181-202:
the per-trade body of the open-position management loop of
check_and_manage_client.  The first argument is the value returned by the
place_kite_order call of line 195 (none = placement failed); the source
discards that return value, so the record update does not depend on it: on a
TSL hit the trade is marked CLOSED with exit price, exit time and realized
P&L regardless of whether the order was placed.  The returned list holds the
order request handed to place_kite_order. -/
def manage_open_trade (_order_result : Option ℕ) (last_price : ℚ) (now : ℕ)
    (trade : TradeLog) : TradeLog × List KiteOrder :=
  let current_sl : ℚ :=
    if trade.trade_type = TradeType.BUY then trade.targets.tsl_y1_buy
    else trade.targets.tsl_y1_sell
  if (trade.trade_type = TradeType.BUY ∧ last_price ≤ current_sl) ∨
      (trade.trade_type ≠ TradeType.BUY ∧ current_sl ≤ last_price) then
    ({ trade with
        status := TradeStatus.CLOSED
        exit_price := some last_price
        exit_time := some now
        realized_pnl := (last_price - trade.entry_price) * (trade.quantity : ℚ) *
          (if trade.trade_type = TradeType.BUY then 1 else -1) },
      [{ side := if trade.trade_type = TradeType.BUY then TradeType.SELL else TradeType.BUY,
         quantity := trade.quantity, price := last_price }])
  else (trade, [])

/-- The result of calculate_strategy_levels (strategy_manager.py lines
22-70) as consumed by check_and_manage_client: the two entry trigger prices
and the target levels stored on a new trade.  The numeric computation inside
calculate_strategy_levels mixes mocked OHLC data with float rounding and no
claim depends on its values, so the computed levels enter the embedding as
data. -/
structure StrategyLevels where
  buy_entry : ℚ
  sell_entry : ℚ
  targets : TargetLevels
deriving DecidableEq

/-- A tick packet read from the tick cache; last_price is
tick_data.get (with default 0, strategy_manager.py line 165), so a packet
whose dict lacks the key carries 0 here. -/
structure TickData where
  last_price : ℚ
deriving DecidableEq

/-- Outcome of one iteration of the per-symbol loop of
check_and_manage_client: either the symbol was skipped (missing tick, zero
last price, or no levels) or it was processed, yielding the saved states of
the trades that were managed, the order requests handed to
place_kite_order, and a newly created trade log if an entry was recorded. -/
inductive SymbolOutcome where
  | Skipped
  | Processed (trades : List TradeLog) (orders : List KiteOrder)
      (new_trade : Option TradeLog)
deriving DecidableEq

/-- Embedded from src/trading/kite_engine/strategy_manager.py lines 157-242:
the body of the per-symbol loop of check_and_manage_client.  Part A manages
the trades whose status is OPEN (the result of each exit placement is
discarded by the source, see manage_open_trade); the open_trades.exists()
re-query of line 209 is re-evaluated against the just-saved records.  Part B
places an entry when the signal fires and records a new trade only when the
entry order succeeded (entry_order_result = some id). -/
def process_symbol (now_time no_new_entry_after now : ℕ) (tick : Option TickData)
    (levels : Option StrategyLevels) (trades : List TradeLog) (qty_type : QtyType)
    (absolute_quantity : ℤ) (exit_order_result entry_order_result : Option ℕ) :
    SymbolOutcome :=
  match tick with
  | none => SymbolOutcome.Skipped
  | some t =>
    if t.last_price = 0 then SymbolOutcome.Skipped
    else
      match levels with
      | none => SymbolOutcome.Skipped
      | some lv =>
        let open_trades := trades.filter (fun tr => tr.status == TradeStatus.OPEN)
        let managed := open_trades.map (manage_open_trade exit_order_result t.last_price now)
        let trades1 := managed.map Prod.fst
        let exit_orders := (managed.map Prod.snd).flatten
        if (trades1.filter (fun tr => tr.status == TradeStatus.OPEN)).isEmpty then
          if no_new_entry_after ≤ now_time then
            SymbolOutcome.Processed trades1 exit_orders none
          else
            let quantity := calculate_quantity qty_type absolute_quantity
            if lv.buy_entry ≤ t.last_price then
              match entry_order_result with
              | some oid =>
                SymbolOutcome.Processed trades1
                  (exit_orders ++ [{ side := TradeType.BUY, quantity := quantity, price := 0 }])
                  (some { trade_type := TradeType.BUY, quantity := quantity,
                          entry_price := t.last_price, targets := lv.targets,
                          entry_order_id := some oid })
              | none =>
                SymbolOutcome.Processed trades1
                  (exit_orders ++ [{ side := TradeType.BUY, quantity := quantity, price := 0 }])
                  none
            else if t.last_price ≤ lv.sell_entry then
              match entry_order_result with
              | some oid =>
                SymbolOutcome.Processed trades1
                  (exit_orders ++ [{ side := TradeType.SELL, quantity := quantity, price := 0 }])
                  (some { trade_type := TradeType.SELL, quantity := quantity,
                          entry_price := t.last_price, targets := lv.targets,
                          entry_order_id := some oid })
              | none =>
                SymbolOutcome.Processed trades1
                  (exit_orders ++ [{ side := TradeType.SELL, quantity := quantity, price := 0 }])
                  none
            else SymbolOutcome.Processed trades1 exit_orders none
        else SymbolOutcome.Processed trades1 exit_orders none

/-- Inputs of one per-symbol iteration of check_and_manage_client that come
from outside the function (cache contents, database rows, gateway results). -/
structure SymbolInput where
  tick : Option TickData
  levels : Option StrategyLevels
  trades : List TradeLog
  qty_type : QtyType
  absolute_quantity : ℤ
  exit_order_result : Option ℕ
  entry_order_result : Option ℕ

/-- Result of one check_and_manage_client pass: the account as left by the
pass, whether client_account.save() was called, and the outcome of each
symbol iteration (empty when the pass returned before the symbol loop). -/
structure ClientResult where
  account : ClientAccount
  saved : Bool
  symbol_results : List SymbolOutcome

/-- Embedded from src/trading/kite_engine/strategy_manager.py lines 111-242,
check_and_manage_client: kill-switch check, access-token check, Kite-instance
check (kite_ok models whether get_kite_instance returned one), the daily
profit/loss limit check of lines 143-152 (which disables trading, saves the
account and returns), then the per-symbol loop. -/
def check_and_manage_client (acc : ClientAccount) (kite_ok : Bool) (current_pnl : ℚ)
    (now_time now : ℕ) (symbols : List SymbolInput) : ClientResult :=
  if acc.is_live_trading_enabled = false then ⟨acc, false, []⟩
  else if acc.has_access_token = false then ⟨acc, false, []⟩
  else if kite_ok = false then ⟨acc, false, []⟩
  else if acc.max_daily_profit ≤ current_pnl then
    ⟨{ acc with is_live_trading_enabled := false }, true, []⟩
  else if current_pnl ≤ acc.max_daily_loss then
    ⟨{ acc with is_live_trading_enabled := false }, true, []⟩
  else
    ⟨acc, false,
      symbols.map (fun s =>
        process_symbol now_time acc.no_new_entry_after now s.tick s.levels s.trades
          s.qty_type s.absolute_quantity s.exit_order_result s.entry_order_result)⟩

/-- Reason tags of the abstract order requests emitted by the ladder engine
(spec.md sections 4.3 and 6: TIME_EXIT, UC_EXIT, LC_EXIT, TSL_EXIT,
REVERSE_ENTRY; ENTRY for the activation leg, PYRAMID_ADD for an add, STOP for
the explicit deactivation trigger). -/
inductive ReasonTag where
  | ENTRY
  | PYRAMID_ADD
  | TSL_EXIT
  | REVERSE_ENTRY
  | TIME_EXIT
  | UC_EXIT
  | LC_EXIT
  | STOP
deriving DecidableEq

/-- An abstract order request of the ladder engine (spec.md section 4.4:
side, quantity, reason tag). -/
structure LadderOrder where
  side : TradeType
  qty : ℤ
  tag : ReasonTag
deriving DecidableEq

/-- Transaction side that opens a leg in the given mode. -/
def entry_side : Mode → TradeType
  | Mode.BUY => TradeType.BUY
  | _ => TradeType.SELL

/-- Transaction side that closes a leg in the given mode. -/
def exit_side : Mode → TradeType
  | Mode.BUY => TradeType.SELL
  | _ => TradeType.BUY

/-- Mode flip on reversal (spec.md section 4.3 step 4: BUY and SELL swap). -/
def flip_mode : Mode → Mode
  | Mode.BUY => Mode.SELL
  | Mode.SELL => Mode.BUY
  | Mode.STOPPED => Mode.STOPPED

/-- Modelled from the spec: order sizing of the missing ladder engine
(spec.md section 3, entry_sizing: a fixed quantity or qty = floor(capital /
price); sections 4.3 and 7: the computed size is clamped below at 1 in the
engine, never surfaced as a fault or a zero-size order).  The sizing
configuration lives in the LadderState fields entry_type / fixed_quantity /
trade_capital of models.py. -/
def ladder_sized_qty (entry_type : EntryType) (fixed_quantity : ℤ)
    (trade_capital price : ℚ) : ℤ :=
  match entry_type with
  | EntryType.QUANTITY => max 1 fixed_quantity
  | EntryType.CAPITAL => max 1 ⌊trade_capital / price⌋

/-- Modelled from the spec: the flattening order of an exit or reversal
(spec.md section 4.3, edge cases: the flattening order is issued only if
current_qty > 0). -/
def flatten_orders (lad : LadderState) (tag : ReasonTag) : List LadderOrder :=
  if 0 < lad.current_qty then
    [{ side := exit_side lad.current_mode, qty := lad.current_qty, tag := tag }]
  else []

/-- Modelled from the spec: deactivation flattens current_qty to 0 and sets
mode = STOPPED (spec.md section 3, lifecycle); is_active mirrors
mode at STOPPED (section 3). -/
def stop_ladder (lad : LadderState) : LadderState :=
  { lad with current_mode := Mode.STOPPED, is_active := false, current_qty := 0 }

/-- Modelled from the spec: the unconditional extreme-price refresh (spec.md
section 4.3 step 3: max in BUY, min in SELL, an uninitialized
extreme_price == 0 in SELL mode is no floor yet). -/
def updated_extreme (lad : LadderState) (ltp : ℚ) : ℚ :=
  if lad.current_mode = Mode.BUY then max lad.extreme_price ltp
  else if lad.extreme_price = 0 then ltp
  else min lad.extreme_price ltp

/-- Modelled from the spec: adverse retracement from the extreme (spec.md
section 4.3 step 4). -/
def adverse_pct (mode : Mode) (extreme ltp : ℚ) : ℚ :=
  if mode = Mode.BUY then (extreme - ltp) / extreme * 100
  else (ltp - extreme) / extreme * 100

/-- Modelled from the spec: favorable move from the last add (spec.md
section 4.3 step 5). -/
def favorable_pct (mode : Mode) (last_add ltp : ℚ) : ℚ :=
  if mode = Mode.BUY then (ltp - last_add) / last_add * 100
  else (last_add - ltp) / last_add * 100

/-- Modelled from the spec: flatten-and-reverse (spec.md section 4.3 step 4:
TSL_EXIT close, REVERSE_ENTRY new leg, mode flips, entry_price =
extreme_price = last_add_price = ltp, level_count = 1, current_qty from
sizing at ltp, minimum 1). -/
def reverse_ladder (lad : LadderState) (ltp : ℚ) : LadderState × List LadderOrder :=
  let new_mode := flip_mode lad.current_mode
  let q := ladder_sized_qty lad.entry_type lad.fixed_quantity lad.trade_capital ltp
  ({ lad with
      current_mode := new_mode
      entry_price := ltp
      extreme_price := ltp
      last_add_price := ltp
      level_count := 1
      current_qty := q },
    flatten_orders lad ReasonTag.TSL_EXIT ++
      [{ side := entry_side new_mode, qty := q, tag := ReasonTag.REVERSE_ENTRY }])

/-- Modelled from the spec: the pyramid-add branch (spec.md section 4.3 step
5: add only when favorable_pct reaches increase_pct and level_count <
max_levels; a zero last_add_price is no signal yet; on the add current_qty
grows by the sized quantity, level_count by one, last_add_price becomes
ltp). -/
def pyramid_branch (lad : LadderState) (ltp : ℚ) : LadderState × List LadderOrder :=
  if lad.last_add_price = 0 then (lad, [])
  else if lad.increase_pct ≤ favorable_pct lad.current_mode lad.last_add_price ltp ∧
      lad.level_count < lad.max_levels then
    let q := ladder_sized_qty lad.entry_type lad.fixed_quantity lad.trade_capital ltp
    ({ lad with
        current_qty := lad.current_qty + q
        level_count := lad.level_count + 1
        last_add_price := ltp },
      [{ side := entry_side lad.current_mode, qty := q, tag := ReasonTag.PYRAMID_ADD }])
  else (lad, [])

/-- Modelled from the spec: circuit-limit exit test (spec.md section 4.3 step
2: BUY mode exits at ltp >= upper circuit limit when one is supplied, SELL
mode at ltp <= lower circuit limit). -/
def circuit_exit_tag (mode : Mode) (ltp : ℚ) (ucl lcl : Option ℚ) : Option ReasonTag :=
  if mode = Mode.BUY then
    match ucl with
    | some u => if u ≤ ltp then some ReasonTag.UC_EXIT else none
    | none => none
  else
    match lcl with
    | some l => if ltp ≤ l then some ReasonTag.LC_EXIT else none
    | none => none

/-- Modelled from the spec: one decision pass of the missing ladder engine
(process_ladder_strategy) for one ladder and one tick — spec.md section 4.3,
checks in the fixed order time exit, circuit exit, extreme refresh, trailing
stop / reversal, pyramid add; a ladder that is not active is not processed
(sections 2 and 4.1).  Returns the resulting ladder record and the emitted
order requests. -/
def ladder_step (now square_off_time : ℕ) (ltp : ℚ) (ucl lcl : Option ℚ)
    (lad : LadderState) : LadderState × List LadderOrder :=
  if lad.is_active = false ∨ lad.current_mode = Mode.STOPPED then (lad, [])
  else if square_off_time ≤ now then
    (stop_ladder lad, flatten_orders lad ReasonTag.TIME_EXIT)
  else
    match circuit_exit_tag lad.current_mode ltp ucl lcl with
    | some tag => (stop_ladder lad, flatten_orders lad tag)
    | none =>
      let lad1 := { lad with extreme_price := updated_extreme lad ltp }
      if lad1.extreme_price ≠ 0 ∧
          lad1.tsl_pct ≤ adverse_pct lad1.current_mode lad1.extreme_price ltp then
        reverse_ladder lad1 ltp
      else pyramid_branch lad1 ltp

/-- Modelled from the spec: activation (start_buy_ladder / start_sell_ladder,
missing from src) — spec.md sections 3 (lifecycle), 4.1 and 6: rejected with
AlreadyActive when is_active is already true (no state change); otherwise
seeds entry_price = last_add_price = extreme_price = ltp, level_count = 1,
current_qty from sizing, and emits the entry order.  The boolean result is
false on an AlreadyActive rejection. -/
def ladder_activate (side : TradeType) (ltp : ℚ) (lad : LadderState) :
    LadderState × List LadderOrder × Bool :=
  if lad.is_active then (lad, [], false)
  else
    let m := match side with
      | TradeType.BUY => Mode.BUY
      | TradeType.SELL => Mode.SELL
    let q := ladder_sized_qty lad.entry_type lad.fixed_quantity lad.trade_capital ltp
    ({ lad with
        is_active := true
        current_mode := m
        entry_price := ltp
        last_add_price := ltp
        extreme_price := ltp
        level_count := 1
        current_qty := q },
      [{ side := side, qty := q, tag := ReasonTag.ENTRY }], true)

/-- Modelled from the spec: the explicit deactivation trigger (spec.md
section 6: stop flattens and sets STOPPED, bypassing the decision engine). -/
def ladder_kill (lad : LadderState) : LadderState × List LadderOrder :=
  (stop_ladder lad, flatten_orders lad ReasonTag.STOP)

/-- JSON responses of the activation endpoints in src/trading/views.py,
abstracted to their status and message: success covers the
status success responses; errAlreadyActive is the "Ladder already running"
rejection of execute_alert_trade (line 573); errNoLiveData the "No Live Data
in Redis" error of trigger_ladder (line 252); errNoPrice the "Live price not
available" error of execute_alert_trade (line 580); errLtpZero the "LTP is
zero. Cannot start ladder." error of trigger_ladder (line 302). -/
inductive ApiResp where
  | success
  | errAlreadyActive
  | errNoLiveData
  | errNoPrice
  | errLtpZero
deriving DecidableEq

/-- Python int() truncation toward zero of a rational, as in
int(entry_value) at views.py line 280. -/
def py_int (q : ℚ) : ℤ :=
  Int.tdiv q.num (q.den : ℤ)

/-- Embedded from src/trading/views.py lines 277-288, trigger_ladder step 3:
the ladder record's entry configuration is overwritten and saved before the
ladder is started — entry_type, then fixed_quantity / trade_capital (the
unused one cleared to 0), then increase_pct and tsl_pct. -/
def trigger_ladder_configure (entry_type : EntryType) (entry_value increase tsl : ℚ)
    (lad : LadderState) : LadderState :=
  let lad1 := { lad with entry_type := entry_type }
  let lad2 :=
    match entry_type with
    | EntryType.QUANTITY =>
      { lad1 with fixed_quantity := py_int entry_value, trade_capital := 0 }
    | EntryType.CAPITAL =>
      { lad1 with trade_capital := entry_value, fixed_quantity := 0 }
  { lad2 with increase_pct := increase, tsl_pct := tsl }

/-- Embedded from src/trading/views.py lines 237-305, trigger_ladder (the
parts acting on the ladder record; request parsing and symbol recovery are
upstream of it): fetch the tick (error when absent), overwrite and save the
ladder configuration, then start the BUY or SELL ladder only when the ltp is
positive.  The started ladder comes from the spec-modelled ladder_activate. -/
def trigger_ladder_core (action : TradeType) (entry_type : EntryType)
    (entry_value increase tsl : ℚ) (tick : Option ℚ) (lad : LadderState) :
    ApiResp × LadderState × List LadderOrder :=
  match tick with
  | none => (ApiResp.errNoLiveData, lad, [])
  | some ltp =>
    let lad1 := trigger_ladder_configure entry_type entry_value increase tsl lad
    if 0 < ltp then
      let r := ladder_activate action ltp lad1
      (ApiResp.success, r.1, r.2.1)
    else (ApiResp.errLtpZero, lad1, [])

/-- Embedded from src/trading/views.py lines 537-595, execute_alert_trade
(the parts acting on the ladder record): reject when the ladder is already
active (line 572, before any write), error when no live price is available,
otherwise start the BUY or SELL ladder (spec-modelled ladder_activate). -/
def execute_alert_trade_core (side : TradeType) (tick : Option ℚ)
    (lad : LadderState) : ApiResp × LadderState × List LadderOrder :=
  if lad.is_active then (ApiResp.errAlreadyActive, lad, [])
  else
    match tick with
    | none => (ApiResp.errNoPrice, lad, [])
    | some ltp =>
      let r := ladder_activate side ltp lad
      (ApiResp.success, r.1, r.2.1)

/-- Outcome of one execution of a Celery task as seen by the worker:
returned normally, was rescheduled with a countdown in seconds, or failed
permanently. -/
inductive TaskOutcome where
  | Completed
  | Rescheduled (countdown : ℕ)
  | Failed
deriving DecidableEq

/-- The exceptions that flow through run_chartink_ladder:
celery.exceptions.Retry (raised by self.retry, carrying the countdown),
celery.exceptions.MaxRetriesExceededError, and LadderState.DoesNotExist.
Retry and MaxRetriesExceededError both derive from Exception, so a broad
except Exception clause catches them. -/
inductive PyExc where
  | Retry (countdown : ℕ)
  | MaxRetriesExceeded
  | DoesNotExist
deriving DecidableEq

/-- Celery's Task.retry: raises Retry with the given countdown while the
retry count stays within max_retries, and MaxRetriesExceededError once it
would exceed it (retries counts the re-executions already performed). -/
def celery_retry (retries max_retries countdown : ℕ) : PyExc :=
  if retries + 1 ≤ max_retries then PyExc.Retry countdown
  else PyExc.MaxRetriesExceeded

/-- Embedded from src/trading/tasks.py lines 196-212: the try-block body of
run_chartink_ladder.  ladder_found models whether LadderState.objects.get
finds the row; a missing tick raises self.retry(countdown=5) under
max_retries=5; with a tick present the ladder is started and the body
returns normally. -/
def chartink_body (ladder_found : Bool) (tick : Option ℚ) (retries : ℕ) :
    Except PyExc Unit :=
  if ladder_found = false then Except.error PyExc.DoesNotExist
  else
    match tick with
    | none => Except.error (celery_retry retries 5 5)
    | some _ => Except.ok ()

/-- Embedded from src/trading/tasks.py lines 194-218, run_chartink_ladder
with its exception handling: except LadderState.DoesNotExist only logs (the
task completes); the broad except Exception clause catches every other
exception — including the Retry raised by self.retry(countdown=5) — and
calls self.retry(exc=e, countdown=10).  The outcome is what the Celery
worker then does: reschedule on a propagated Retry, fail permanently on
MaxRetriesExceededError. -/
def chartink_task (ladder_found : Bool) (tick : Option ℚ) (retries : ℕ) :
    TaskOutcome :=
  match chartink_body ladder_found tick retries with
  | Except.ok _ => TaskOutcome.Completed
  | Except.error PyExc.DoesNotExist => TaskOutcome.Completed
  | Except.error _ =>
    match celery_retry retries 5 10 with
    | PyExc.Retry c => TaskOutcome.Rescheduled c
    | _ => TaskOutcome.Failed

/-- Modelled from the spec: the per-ladder lock store of the Lock Manager
(spec.md section 4.2), keyed by ladder id with an absolute expiry time.  The
lock code belongs to the ladder engine module missing from src (the on_ticks
hook of data_handler.py lines 169-174 calls into it). -/
structure LockStore where
  locks : List (ℕ × ℕ)
deriving DecidableEq

/-- Whether the ladder's lock key is currently held (present and not yet
expired). -/
def lock_held (s : LockStore) (id now : ℕ) : Bool :=
  s.locks.any (fun p => decide (p.1 = id ∧ now < p.2))

/-- Modelled from the spec: try_acquire (spec.md section 4.2) — an atomic
set-if-absent with expiry: a held, unexpired key fails the caller without
waiting; otherwise the key is set to expire at now + ttl and the caller gets
exclusive rights. -/
def try_acquire (s : LockStore) (id now ttl : ℕ) : Bool × LockStore :=
  if lock_held s id now then (false, s)
  else (true, ⟨(id, now + ttl) :: s.locks.filter (fun p => decide (p.1 ≠ id))⟩)

/-- Modelled from the spec: release (spec.md section 4.2), best-effort
deletion of the key. -/
def lock_release (s : LockStore) (id : ℕ) : LockStore :=
  ⟨s.locks.filter (fun p => decide (p.1 ≠ id))⟩

/-- Modelled from the spec: one lock-guarded processing attempt for one
ladder and one tick (spec.md sections 2 and 5: try_acquire, then the
decision step and release for the winner; a losing caller skips the tick —
the ladder is untouched and no order is emitted). -/
def locked_tick_pass (s : LockStore) (id now ttl : ℕ) (square_off_time : ℕ)
    (ltp : ℚ) (ucl lcl : Option ℚ) (lad : LadderState) :
    LockStore × LadderState × List LadderOrder :=
  let a := try_acquire s id now ttl
  if a.1 then
    let r := ladder_step now square_off_time ltp ucl lcl lad
    (lock_release a.2 id, r.1, r.2)
  else (a.2, lad, [])

/-- Ladder records reachable through the system's transitions: lazy creation
with the model defaults (models.py), the configuration overwrite of
trigger_ladder (views.py), activation, a decision-engine tick, and the
explicit stop (the latter three spec-modelled).  The activate transition
carries the configuration validity 1 <= max_levels: spec.md section 3
requires level_count >= 1 while active with max_levels as its ceiling, so an
activable configuration has a ceiling of at least one level. -/
inductive LadderReachable : LadderState → Prop where
  | init : LadderReachable initialLadder
  | configure (entry_type : EntryType) (entry_value increase tsl : ℚ)
      {lad : LadderState} (h : LadderReachable lad) :
      LadderReachable (trigger_ladder_configure entry_type entry_value increase tsl lad)
  | activate (side : TradeType) (ltp : ℚ) {lad : LadderState}
      (h : LadderReachable lad) (hmax : 1 ≤ lad.max_levels) :
      LadderReachable (ladder_activate side ltp lad).1
  | tick (now square_off_time : ℕ) (ltp : ℚ) (ucl lcl : Option ℚ)
      {lad : LadderState} (h : LadderReachable lad) :
      LadderReachable (ladder_step now square_off_time ltp ucl lcl lad).1
  | kill {lad : LadderState} (h : LadderReachable lad) :
      LadderReachable (ladder_kill lad).1

/-- The state invariant of a ladder record (spec.md sections 3 and 8): a
STOPPED ladder is flat and inactive; an active ladder holds at least one
unit, is at level at least one with a positive ceiling, and has is_active
set; the level never exceeds the ceiling. -/
def LadderInv (lad : LadderState) : Prop :=
  (lad.current_mode = Mode.STOPPED → lad.current_qty = 0 ∧ lad.is_active = false) ∧
  (lad.current_mode ≠ Mode.STOPPED →
    1 ≤ lad.current_qty ∧ 1 ≤ lad.level_count ∧ 1 ≤ lad.max_levels ∧
      lad.is_active = true) ∧
  lad.level_count ≤ lad.max_levels ∧ 0 ≤ lad.level_count

lemma one_le_ladder_sized_qty (entry_type : EntryType) (fixed_quantity : ℤ)
    (trade_capital price : ℚ) :
    1 ≤ ladder_sized_qty entry_type fixed_quantity trade_capital price := by
  cases entry_type <;> exact le_max_left _ _

lemma flip_mode_ne_stopped {m : Mode} (h : m ≠ Mode.STOPPED) :
    flip_mode m ≠ Mode.STOPPED := by
  cases m <;> simp_all [flip_mode]

lemma inv_stop_ladder {lad : LadderState} (h : LadderInv lad) :
    LadderInv (stop_ladder lad) := by
  obtain ⟨-, -, h3, h4⟩ := h
  exact ⟨fun _ => ⟨rfl, rfl⟩, fun hm => absurd rfl hm, h3, h4⟩

lemma inv_reverse_ladder {lad : LadderState} (ltp : ℚ) (h : LadderInv lad)
    (hm : lad.current_mode ≠ Mode.STOPPED) : LadderInv (reverse_ladder lad ltp).1 := by
  obtain ⟨-, h2, -, -⟩ := h
  obtain ⟨-, -, hmax, hact⟩ := h2 hm
  unfold reverse_ladder LadderInv
  dsimp only
  exact ⟨fun hst => absurd hst (flip_mode_ne_stopped hm),
    fun _ => ⟨one_le_ladder_sized_qty _ _ _ _, le_refl 1, hmax, hact⟩, hmax, zero_le_one⟩

lemma inv_pyramid_branch {lad : LadderState} (ltp : ℚ) (h : LadderInv lad)
    (hm : lad.current_mode ≠ Mode.STOPPED) : LadderInv (pyramid_branch lad ltp).1 := by
  unfold pyramid_branch
  split
  · exact h
  · split
    · rename_i hcond
      obtain ⟨-, h2, h3, h4⟩ := h
      obtain ⟨hq, hl, hmax, hact⟩ := h2 hm
      obtain ⟨-, hlt⟩ := hcond
      have hs := one_le_ladder_sized_qty lad.entry_type lad.fixed_quantity
        lad.trade_capital ltp
      unfold LadderInv
      dsimp only
      exact ⟨fun hst => absurd hst hm, fun _ => ⟨by omega, by omega, hmax, hact⟩,
        by omega, by omega⟩
    · exact h

lemma inv_ladder_step {lad : LadderState} (now square_off_time : ℕ) (ltp : ℚ)
    (ucl lcl : Option ℚ) (h : LadderInv lad) :
    LadderInv (ladder_step now square_off_time ltp ucl lcl lad).1 := by
  unfold ladder_step
  split
  · exact h
  · rename_i hact
    have hm : lad.current_mode ≠ Mode.STOPPED := fun hst => hact (Or.inr hst)
    split
    · exact inv_stop_ladder h
    · split
      · exact inv_stop_ladder h
      · have h1 : LadderInv { lad with extreme_price := updated_extreme lad ltp } := h
        dsimp only
        split
        · exact inv_reverse_ladder ltp h1 hm
        · exact inv_pyramid_branch ltp h1 hm

lemma inv_ladder_activate {lad : LadderState} (side : TradeType) (ltp : ℚ)
    (h : LadderInv lad) (hmax : 1 ≤ lad.max_levels) :
    LadderInv (ladder_activate side ltp lad).1 := by
  unfold ladder_activate
  split
  · exact h
  · have hs := one_le_ladder_sized_qty lad.entry_type lad.fixed_quantity
      lad.trade_capital ltp
    cases side <;>
    · unfold LadderInv
      dsimp only
      exact ⟨fun hst => Mode.noConfusion hst,
        fun _ => ⟨hs, le_refl 1, hmax, rfl⟩, hmax, zero_le_one⟩

lemma inv_configure {lad : LadderState} (entry_type : EntryType)
    (entry_value increase tsl : ℚ) (h : LadderInv lad) :
    LadderInv (trigger_ladder_configure entry_type entry_value increase tsl lad) := by
  unfold trigger_ladder_configure
  cases entry_type <;> exact h

lemma inv_ladder_kill {lad : LadderState} (h : LadderInv lad) :
    LadderInv (ladder_kill lad).1 :=
  inv_stop_ladder h

lemma inv_initial : LadderInv initialLadder := by
  refine ⟨fun _ => ⟨rfl, rfl⟩, fun hm => absurd rfl hm, ?_, ?_⟩ <;> decide

/-- Every reachable ladder record satisfies the state invariant. -/
theorem ladder_reachable_inv {lad : LadderState} (h : LadderReachable lad) :
    LadderInv lad := by
  induction h with
  | init => exact inv_initial
  | configure entry_type entry_value increase tsl h ih =>
    exact inv_configure entry_type entry_value increase tsl ih
  | activate side ltp h hmax ih => exact inv_ladder_activate side ltp ih hmax
  | tick now square_off_time ltp ucl lcl h ih =>
    exact inv_ladder_step now square_off_time ltp ucl lcl ih
  | kill h ih => exact inv_ladder_kill ih

/-- Trading-state fields of the ladder record are untouched by the
configuration overwrite of trigger_ladder (it writes only entry_type,
fixed_quantity, trade_capital, increase_pct, tsl_pct). -/
lemma configure_preserves_trading_state (entry_type : EntryType)
    (entry_value increase tsl : ℚ) (lad : LadderState) :
    (trigger_ladder_configure entry_type entry_value increase tsl lad).is_active =
      lad.is_active ∧
    (trigger_ladder_configure entry_type entry_value increase tsl lad).current_mode =
      lad.current_mode ∧
    (trigger_ladder_configure entry_type entry_value increase tsl lad).current_qty =
      lad.current_qty ∧
    (trigger_ladder_configure entry_type entry_value increase tsl lad).level_count =
      lad.level_count ∧
    (trigger_ladder_configure entry_type entry_value increase tsl lad).entry_price =
      lad.entry_price ∧
    (trigger_ladder_configure entry_type entry_value increase tsl lad).last_add_price =
      lad.last_add_price ∧
    (trigger_ladder_configure entry_type entry_value increase tsl lad).extreme_price =
      lad.extreme_price := by
  unfold trigger_ladder_configure
  cases entry_type <;> exact ⟨rfl, rfl, rfl, rfl, rfl, rfl, rfl⟩

/-- An OPEN BUY trade of 10 units entered at 100 whose targets dict holds
TSL_Y1_BUY = 95. -/
def c1Trade : TradeLog :=
  { trade_type := TradeType.BUY, quantity := 10, entry_price := 100,
    targets := { tsl_y1_buy := 95, tsl_y1_sell := 0 } }

/-- C1: the claim states that a failed place_kite_order call leaves the
persisted trading state bit-for-bit unchanged, including on the
exit/square-off path.  On the square-off path of check_and_manage_client the
code contradicts this: at last_price = 94 the TSL of the c1Trade position is
hit, the square-off order is handed to the gateway, and the trade record is
marked CLOSED with exit price, exit time and realized P&L even when the
placement returns a failure — indeed the update is the same whether the call
returns an order id or none, because the return value of line 195 is
discarded. -/
theorem C1_exit_mutates_despite_failed_order :
    manage_open_trade (some 7) 94 120 c1Trade = manage_open_trade none 94 120 c1Trade ∧
    (manage_open_trade none 94 120 c1Trade).1.status = TradeStatus.CLOSED ∧
    c1Trade.status = TradeStatus.OPEN ∧
    (manage_open_trade none 94 120 c1Trade).2 =
      [{ side := TradeType.SELL, quantity := 10, price := 94 }] ∧
    (manage_open_trade none 94 120 c1Trade).1 ≠ c1Trade := by
  refine ⟨rfl, ?_, rfl, ?_, ?_⟩ <;>
    norm_num [manage_open_trade, c1Trade, TradeLog.mk.injEq]

/-- A ladder record that is already running (active BUY ladder holding 5
units at level 1, with the model-default tsl_pct = 1). -/
def c2Ladder : LadderState :=
  { is_active := true, current_mode := Mode.BUY, current_qty := 5, level_count := 1 }

/-- C2 counterexample: at the trigger_ladder activation entry point, a
request on an already-active ladder is not rejected (the response is
success) and the ladder record is not left unchanged — the configuration
fields are overwritten and saved before any active check, so tsl_pct moves
from 1 to 3. -/
theorem C2_counterexample_trigger_overwrites :
    c2Ladder.is_active = true ∧
    (trigger_ladder_core TradeType.BUY EntryType.CAPITAL 5000 2 3 (some 100)
        c2Ladder).1 = ApiResp.success ∧
    (trigger_ladder_core TradeType.BUY EntryType.CAPITAL 5000 2 3 (some 100)
        c2Ladder).2.1.tsl_pct = 3 ∧
    c2Ladder.tsl_pct = 1 ∧
    (trigger_ladder_core TradeType.BUY EntryType.CAPITAL 5000 2 3 (some 100)
        c2Ladder).2.1 ≠ c2Ladder := by
  refine ⟨rfl, ?_, ?_, rfl, ?_⟩ <;>
    norm_num [trigger_ladder_core, trigger_ladder_configure, ladder_activate,
      c2Ladder, LadderState.mk.injEq]

/-- C2 amended: an activation request on an already-active ladder is
rejected synchronously with the already-running error and the whole record
left unchanged at the execute_alert_trade entry point, and the ladder
activation itself (spec-modelled) rejects with no state change and no order;
at the trigger_ladder entry point no order is placed and the trading-state
fields are untouched, but the configuration fields are overwritten before
the active check (see the counterexample), so there the record is not left
unchanged. -/
theorem C2_already_active_rejected (lad : LadderState) (side action : TradeType)
    (tick : Option ℚ) (entry_type : EntryType) (ev inc tsl ltp : ℚ)
    (h : lad.is_active = true) :
    execute_alert_trade_core side tick lad = (ApiResp.errAlreadyActive, lad, []) ∧
    ladder_activate side ltp lad = (lad, [], false) ∧
    (trigger_ladder_core action entry_type ev inc tsl (some ltp) lad).2.2 = [] ∧
    (trigger_ladder_core action entry_type ev inc tsl (some ltp) lad).2.1.current_mode =
      lad.current_mode ∧
    (trigger_ladder_core action entry_type ev inc tsl (some ltp) lad).2.1.current_qty =
      lad.current_qty ∧
    (trigger_ladder_core action entry_type ev inc tsl (some ltp) lad).2.1.level_count =
      lad.level_count := by
  obtain ⟨ha, hmo, hq, hl, -, -, -⟩ :=
    configure_preserves_trading_state entry_type ev inc tsl lad
  have hactive1 :
      (trigger_ladder_configure entry_type ev inc tsl lad).is_active = true := by
    rw [ha, h]
  refine ⟨?_, ?_, ?_, ?_, ?_, ?_⟩
  · simp [execute_alert_trade_core, h]
  · simp [ladder_activate, h]
  · by_cases hp : 0 < ltp <;>
      simp [trigger_ladder_core, hp, ladder_activate, hactive1]
  · by_cases hp : 0 < ltp <;>
      simp [trigger_ladder_core, hp, ladder_activate, hactive1, hmo]
  · by_cases hp : 0 < ltp <;>
      simp [trigger_ladder_core, hp, ladder_activate, hactive1, hq]
  · by_cases hp : 0 < ltp <;>
      simp [trigger_ladder_core, hp, ladder_activate, hactive1, hl]

/-- C2 witness: the amended statement at the concrete already-active ladder
c2Ladder, a BUY request with a live price of 100. -/
theorem C2_already_active_rejected_witness :
    execute_alert_trade_core TradeType.BUY (some 100) c2Ladder =
      (ApiResp.errAlreadyActive, c2Ladder, []) ∧
    ladder_activate TradeType.BUY 100 c2Ladder = (c2Ladder, [], false) ∧
    (trigger_ladder_core TradeType.BUY EntryType.CAPITAL 5000 2 3 (some 100)
        c2Ladder).2.2 = [] := by
  have h := C2_already_active_rejected c2Ladder TradeType.BUY TradeType.BUY
    (some 100) EntryType.CAPITAL 5000 2 3 100 rfl
  exact ⟨h.1, h.2.1, h.2.2.1⟩

/-- An OPEN BUY trade whose targets dict lacks the TSL keys (both read as 0,
as trade.targets.get does at strategy_manager.py line 187). -/
def c8Trade : TradeLog :=
  { trade_type := TradeType.BUY, quantity := 5, entry_price := 10,
    targets := { tsl_y1_buy := 0, tsl_y1_sell := 0 } }

/-- Strategy levels under which a negative last price sits below the sell
entry trigger. -/
def c8Levels : StrategyLevels :=
  { buy_entry := 100, sell_entry := 50,
    targets := { tsl_y1_buy := 9, tsl_y1_sell := 11 } }

/-- C8 counterexample: a price event with the negative last price -1 is not
dropped by check_and_manage_client — its guard (line 167) tests
last_price == 0 only.  The event flows into the decision pass: the open
c8Trade is squared off and mutated to CLOSED (its stop, read as 0, is above
the negative price) and two orders are handed to the gateway, one square-off
and one fresh SELL entry. -/
theorem C8_counterexample_negative_price :
    (-1 : ℚ) < 0 ∧
    process_symbol 0 900 50 (some { last_price := -1 }) (some c8Levels) [c8Trade]
        QtyType.ABS 1 none none =
      SymbolOutcome.Processed
        [{ c8Trade with
            status := TradeStatus.CLOSED
            exit_price := some (-1)
            exit_time := some 50
            realized_pnl := -55 }]
        [{ side := TradeType.SELL, quantity := 5, price := -1 },
          { side := TradeType.SELL, quantity := 1, price := 0 }] none := by
  constructor
  · norm_num
  · norm_num [process_symbol, manage_open_trade, calculate_quantity, c8Trade, c8Levels]
    decide

/-- C8 amended: a price event whose last price is exactly zero (including a
missing last_price key, read as 0) is dropped by the per-symbol pass of
check_and_manage_client — no trade is read into a decision, no order placed;
and at trigger_ladder any non-positive ltp prevents the ladder start: the
response is the LTP-is-zero error, no order is placed and the trading state
of the ladder is untouched (a strictly negative price, however, is not
dropped by check_and_manage_client — see the counterexample). -/
theorem C8_zero_price_dropped (now_time no_new_entry_after now : ℕ)
    (levels : Option StrategyLevels) (trades : List TradeLog) (qty_type : QtyType)
    (aq : ℤ) (xr er : Option ℕ) (action : TradeType) (entry_type : EntryType)
    (ev inc tsl : ℚ) (lad : LadderState) (ltp : ℚ) (hltp : ltp ≤ 0) :
    process_symbol now_time no_new_entry_after now (some { last_price := 0 })
        levels trades qty_type aq xr er = SymbolOutcome.Skipped ∧
    (trigger_ladder_core action entry_type ev inc tsl (some ltp) lad).1 =
      ApiResp.errLtpZero ∧
    (trigger_ladder_core action entry_type ev inc tsl (some ltp) lad).2.2 = [] ∧
    (trigger_ladder_core action entry_type ev inc tsl (some ltp) lad).2.1.current_mode =
      lad.current_mode ∧
    (trigger_ladder_core action entry_type ev inc tsl (some ltp) lad).2.1.current_qty =
      lad.current_qty := by
  obtain ⟨-, hmo, hq, -, -, -, -⟩ :=
    configure_preserves_trading_state entry_type ev inc tsl lad
  have hnot : ¬(0 < ltp) := not_lt.mpr hltp
  refine ⟨?_, ?_, ?_, ?_, ?_⟩
  · simp [process_symbol]
  · simp [trigger_ladder_core, hnot]
  · simp [trigger_ladder_core, hnot]
  · simp [trigger_ladder_core, hnot, hmo]
  · simp [trigger_ladder_core, hnot, hq]

/-- C8 witness: the amended statement at a concrete zero-price tick and a
concrete negative trigger ltp of -2 on the initial ladder record. -/
theorem C8_zero_price_dropped_witness :
    process_symbol 0 900 50 (some { last_price := 0 }) (some c8Levels) [c8Trade]
        QtyType.ABS 1 none none = SymbolOutcome.Skipped ∧
    (trigger_ladder_core TradeType.BUY EntryType.CAPITAL 5000 2 3 (some (-2))
        initialLadder).1 = ApiResp.errLtpZero := by
  have h := C8_zero_price_dropped 0 900 50 (some c8Levels) [c8Trade] QtyType.ABS 1
    none none TradeType.BUY EntryType.CAPITAL 5000 2 3 initialLadder (-2)
    (by norm_num)
  exact ⟨h.1, h.2.1⟩

/-- C9 counterexample: with the ladder row present, the tick missing and no
retry performed yet, run_chartink_ladder is rescheduled with a countdown of
10 seconds, not the 5 seconds stated by the claim: the Retry exception
raised by self.retry(countdown=5) inside the try block derives from
Exception, so the broad except clause of line 216 catches it and reschedules
via self.retry(exc=e, countdown=10). -/
theorem C9_counterexample_countdown_ten :
    chartink_task true none 0 = TaskOutcome.Rescheduled 10 ∧
    chartink_task true none 0 ≠ TaskOutcome.Rescheduled 5 := by decide

/-- C9 amended: when the price tick is missing the chartink ladder task
never blocks the worker: while fewer than the 5 allowed retries have run it
reschedules itself with a fixed delay — effectively a 10-second countdown,
because the countdown-5 retry is intercepted by the catch-all exception
handler which re-issues it with countdown 10 — and once the 5 retries are
exhausted the task terminates as failed instead of rescheduling. -/
theorem C9_bounded_reschedule (retries : ℕ) :
    (retries < 5 → chartink_task true none retries = TaskOutcome.Rescheduled 10) ∧
    (5 ≤ retries → chartink_task true none retries = TaskOutcome.Failed) := by
  constructor <;> intro h
  · have h5 : retries + 1 ≤ 5 := by omega
    simp [chartink_task, chartink_body, celery_retry, h5]
  · have h5 : ¬(retries + 1 ≤ 5) := by omega
    simp [chartink_task, chartink_body, celery_retry, h5]

/-- C9 witness: the amended statement on a fresh task run (0 retries, gets
rescheduled at 10 seconds) and on a run after the retries are exhausted (7
retries recorded, task fails instead of rescheduling). -/
theorem C9_bounded_reschedule_witness :
    chartink_task true none 0 = TaskOutcome.Rescheduled 10 ∧
    chartink_task true none 7 = TaskOutcome.Failed :=
  ⟨(C9_bounded_reschedule 0).1 (by norm_num), (C9_bounded_reschedule 7).2 (by norm_num)⟩

/-- C10: on a pass whose kill-switch, token and Kite-instance checks succeed,
a realized daily P&L at or beyond either limit makes check_and_manage_client
disable live trading, save the account, and return before the symbol loop —
no symbol is evaluated and hence no order is placed in that pass. -/
theorem C10_daily_limit_disables (acc : ClientAccount) (kite_ok : Bool) (pnl : ℚ)
    (now_time now : ℕ) (symbols : List SymbolInput)
    (h1 : acc.is_live_trading_enabled = true) (h2 : acc.has_access_token = true)
    (h3 : kite_ok = true)
    (h : acc.max_daily_profit ≤ pnl ∨ pnl ≤ acc.max_daily_loss) :
    check_and_manage_client acc kite_ok pnl now_time now symbols =
      ⟨{ acc with is_live_trading_enabled := false }, true, []⟩ := by
  rcases h with h | h
  · simp [check_and_manage_client, h1, h2, h3, h]
  · by_cases hp : acc.max_daily_profit ≤ pnl
    · simp [check_and_manage_client, h1, h2, h3, hp]
    · simp [check_and_manage_client, h1, h2, h3, hp, h]

/-- An enabled, token-bearing account with the model-default daily limits. -/
def c10Account : ClientAccount :=
  { is_live_trading_enabled := true, has_access_token := true,
    max_daily_profit := 10000, max_daily_loss := -5000, no_new_entry_after := 900 }

/-- C10 witness: a pass for c10Account with a realized P&L of 12000 (beyond
the 10000 profit limit) disables trading, saves, and evaluates no symbol. -/
theorem C10_daily_limit_disables_witness :
    check_and_manage_client c10Account true 12000 0 0 [] =
      ⟨{ c10Account with is_live_trading_enabled := false }, true, []⟩ :=
  C10_daily_limit_disables c10Account true 12000 0 0 [] rfl rfl rfl
    (Or.inl (by norm_num [c10Account]))

/-- C5: in every reachable ladder state the ladder is flat exactly when it is
stopped — current_qty = 0 iff mode = STOPPED.  In particular an activated
ladder holds at least one unit (the invariant gives 1 <= current_qty while
mode is not STOPPED) and every deactivation path sets both mode = STOPPED and
current_qty = 0. -/
theorem C5_flat_iff_stopped (lad : LadderState) (h : LadderReachable lad) :
    lad.current_qty = 0 ↔ lad.current_mode = Mode.STOPPED := by
  obtain ⟨h1, h2, -, -⟩ := ladder_reachable_inv h
  constructor
  · intro hq
    by_contra hm
    have := (h2 hm).1
    omega
  · exact fun hm => (h1 hm).1

/-- A reachable ladder just activated as a BUY ladder at price 100 from the
freshly created record. -/
def c5Ladder : LadderState := (ladder_activate TradeType.BUY 100 initialLadder).1

/-- C5 witness: the iff at two concrete reachable states, the fresh record
(flat and STOPPED) and the just-activated BUY ladder (non-flat, not
STOPPED). -/
theorem C5_flat_iff_stopped_witness :
    (initialLadder.current_qty = 0 ↔ initialLadder.current_mode = Mode.STOPPED) ∧
    (c5Ladder.current_qty = 0 ↔ c5Ladder.current_mode = Mode.STOPPED) :=
  ⟨C5_flat_iff_stopped initialLadder LadderReachable.init,
    C5_flat_iff_stopped c5Ladder
      (LadderReachable.activate TradeType.BUY 100 LadderReachable.init
        (by norm_num [initialLadder]))⟩

/-- C6: in every reachable ladder state level_count never exceeds the
max_levels ceiling carried on the ladder record, and a pyramid-add attempt
when level_count has reached max_levels is a no-op: the pyramid branch
places no order and changes no state, whatever the tick price (the
unconditional extreme-price refresh of step 3 is outside the pyramid-add
attempt). -/
theorem C6_level_ceiling (lad : LadderState) (h : LadderReachable lad) (ltp : ℚ) :
    lad.level_count ≤ lad.max_levels ∧
    (lad.level_count = lad.max_levels → pyramid_branch lad ltp = (lad, [])) := by
  obtain ⟨-, -, h3, -⟩ := ladder_reachable_inv h
  refine ⟨h3, fun hceil => ?_⟩
  unfold pyramid_branch
  split
  · rfl
  · split
    · rename_i hcond
      exact absurd hcond.2 (by omega)
    · rfl

/-- A reachable ladder at its level ceiling: configured to fixed-quantity
sizing of 7 units, activated as a BUY ladder at 100, then pyramided four
times on the rising ticks 102, 105, 110, 115 (each a favorable move of at
least the 1 percent increase_pct), reaching level_count = max_levels = 5. -/
def c6Ceiling : LadderState :=
  (ladder_step 0 1000 115 none none
    (ladder_step 0 1000 110 none none
      (ladder_step 0 1000 105 none none
        (ladder_step 0 1000 102 none none
          (ladder_activate TradeType.BUY 100
            (trigger_ladder_configure EntryType.QUANTITY 7 1 1 initialLadder)).1).1).1).1).1

/-- The chain of states leading to c6Ceiling, written out: after the
configuration overwrite. -/
def c6s1 : LadderState :=
  { entry_type := EntryType.QUANTITY, fixed_quantity := 7, trade_capital := 0 }

/-- After activation as a BUY ladder at 100. -/
def c6s2 : LadderState :=
  { c6s1 with
      is_active := true
      current_mode := Mode.BUY
      entry_price := 100
      last_add_price := 100
      extreme_price := 100
      current_qty := 7
      level_count := 1 }

/-- After the pyramid add at 102. -/
def c6s3 : LadderState :=
  { c6s2 with
      extreme_price := 102
      last_add_price := 102
      current_qty := 14
      level_count := 2 }

/-- After the pyramid add at 105. -/
def c6s4 : LadderState :=
  { c6s3 with
      extreme_price := 105
      last_add_price := 105
      current_qty := 21
      level_count := 3 }

/-- After the pyramid add at 110. -/
def c6s5 : LadderState :=
  { c6s4 with
      extreme_price := 110
      last_add_price := 110
      current_qty := 28
      level_count := 4 }

/-- After the pyramid add at 115: the ceiling state. -/
def c6s6 : LadderState :=
  { c6s5 with
      extreme_price := 115
      last_add_price := 115
      current_qty := 35
      level_count := 5 }

lemma mode_buy_ne_stopped : (Mode.BUY = Mode.STOPPED) = False :=
  eq_false (by decide)

lemma c6w1 : trigger_ladder_configure EntryType.QUANTITY 7 1 1 initialLadder = c6s1 := by
  norm_num [trigger_ladder_configure, initialLadder, py_int, c6s1,
    LadderState.mk.injEq]

lemma c6w2 : (ladder_activate TradeType.BUY 100 c6s1).1 = c6s2 := by
  norm_num [ladder_activate, ladder_sized_qty, c6s1, c6s2, LadderState.mk.injEq]

lemma c6w3 : (ladder_step 0 1000 102 none none c6s2).1 = c6s3 := by
  norm_num [ladder_step, mode_buy_ne_stopped, c6s3, c6s2, c6s1, circuit_exit_tag, updated_extreme,
    adverse_pct, favorable_pct, pyramid_branch, reverse_ladder, ladder_sized_qty,
    stop_ladder, flatten_orders, entry_side, max_eq_right, LadderState.mk.injEq]

lemma c6w4 : (ladder_step 0 1000 105 none none c6s3).1 = c6s4 := by
  norm_num [ladder_step, mode_buy_ne_stopped, c6s4, c6s3, c6s2, c6s1, circuit_exit_tag, updated_extreme,
    adverse_pct, favorable_pct, pyramid_branch, reverse_ladder, ladder_sized_qty,
    stop_ladder, flatten_orders, entry_side, max_eq_right, LadderState.mk.injEq]

lemma c6w5 : (ladder_step 0 1000 110 none none c6s4).1 = c6s5 := by
  norm_num [ladder_step, mode_buy_ne_stopped, c6s5, c6s4, c6s3, c6s2, c6s1, circuit_exit_tag,
    updated_extreme, adverse_pct, favorable_pct, pyramid_branch, reverse_ladder,
    ladder_sized_qty, stop_ladder, flatten_orders, entry_side, max_eq_right,
    LadderState.mk.injEq]

lemma c6w6 : (ladder_step 0 1000 115 none none c6s5).1 = c6s6 := by
  norm_num [ladder_step, mode_buy_ne_stopped, c6s6, c6s5, c6s4, c6s3, c6s2, c6s1, circuit_exit_tag,
    updated_extreme, adverse_pct, favorable_pct, pyramid_branch, reverse_ladder,
    ladder_sized_qty, stop_ladder, flatten_orders, entry_side, max_eq_right,
    LadderState.mk.injEq]

lemma c6Ceiling_eq : c6Ceiling = c6s6 := by
  unfold c6Ceiling
  rw [c6w1, c6w2, c6w3, c6w4, c6w5, c6w6]

lemma c6Ceiling_reachable : LadderReachable c6Ceiling :=
  LadderReachable.tick 0 1000 115 none none
    (LadderReachable.tick 0 1000 110 none none
      (LadderReachable.tick 0 1000 105 none none
        (LadderReachable.tick 0 1000 102 none none
          (LadderReachable.activate TradeType.BUY 100
            (LadderReachable.configure EntryType.QUANTITY 7 1 1 LadderReachable.init)
            (by norm_num [trigger_ladder_configure, initialLadder])))))

/-- C6 witness: at the reachable ceiling state c6Ceiling (level 5 of 5), a
further favorable tick at 117 is rejected by the pyramid branch with no
order and no state change, and the ceiling bound holds. -/
theorem C6_level_ceiling_witness :
    pyramid_branch c6Ceiling 117 = (c6Ceiling, []) ∧
    c6Ceiling.level_count ≤ c6Ceiling.max_levels := by
  have h := C6_level_ceiling c6Ceiling c6Ceiling_reachable 117
  exact ⟨h.2 (by rw [c6Ceiling_eq]; rfl), h.1⟩

/-- C4: for an active non-stopped ladder, on a tick that triggers neither the
time exit nor a circuit exit, if the adverse retracement from the refreshed
extreme reaches tsl_pct, the engine emits exactly a flatten tagged TSL_EXIT
(for the open quantity) plus a REVERSE_ENTRY, flips the mode, reseeds
entry_price = extreme_price = last_add_price = ltp, sets level_count = 1 and
recomputes current_qty from sizing at ltp, which is at least 1. -/
theorem C4_tsl_reversal (lad : LadderState) (now square_off_time : ℕ) (ltp : ℚ)
    (ucl lcl : Option ℚ) (hact : lad.is_active = true)
    (hmode : lad.current_mode ≠ Mode.STOPPED) (htime : now < square_off_time)
    (hcirc : circuit_exit_tag lad.current_mode ltp ucl lcl = none)
    (hex : updated_extreme lad ltp ≠ 0)
    (htsl : lad.tsl_pct ≤ adverse_pct lad.current_mode (updated_extreme lad ltp) ltp)
    (hq : 0 < lad.current_qty) :
    ladder_step now square_off_time ltp ucl lcl lad =
      ({ lad with
          current_mode := flip_mode lad.current_mode
          entry_price := ltp
          extreme_price := ltp
          last_add_price := ltp
          level_count := 1
          current_qty := ladder_sized_qty lad.entry_type lad.fixed_quantity
            lad.trade_capital ltp },
        [{ side := exit_side lad.current_mode, qty := lad.current_qty,
            tag := ReasonTag.TSL_EXIT },
          { side := entry_side (flip_mode lad.current_mode),
            qty := ladder_sized_qty lad.entry_type lad.fixed_quantity
              lad.trade_capital ltp,
            tag := ReasonTag.REVERSE_ENTRY }]) ∧
    1 ≤ ladder_sized_qty lad.entry_type lad.fixed_quantity lad.trade_capital ltp := by
  refine ⟨?_, one_le_ladder_sized_qty _ _ _ _⟩
  have hc1 : ¬(lad.is_active = false ∨ lad.current_mode = Mode.STOPPED) := by
    simp [hact, hmode]
  have hc2 : ¬(square_off_time ≤ now) := by omega
  unfold ladder_step
  rw [if_neg hc1, if_neg hc2, hcirc]
  dsimp only
  split
  · unfold reverse_ladder flatten_orders
    dsimp only
    rw [if_pos hq]
    rfl
  · rename_i hcontra
    exact absurd ⟨hex, htsl⟩ hcontra

/-- Scenario A of the spec: an active BUY ladder with tsl_pct = 1, entry,
extreme and last add at 100, holding 100 units at level 1, capital sizing
of 10000. -/
def scnALadder : LadderState :=
  { is_active := true, current_mode := Mode.BUY, entry_price := 100,
    last_add_price := 100, extreme_price := 100, current_qty := 100,
    level_count := 1, entry_type := EntryType.CAPITAL, trade_capital := 10000,
    increase_pct := 1, tsl_pct := 1 }

/-- C4 witness, Scenario A: the tick ltp = 98.9 gives an adverse move of 1.1
percent >= 1 percent, so the BUY ladder reverses to SELL, reseeds entry =
extreme = last add = 98.9, level 1, and resizes to floor(10000 / 98.9) = 101
units, emitting the TSL_EXIT flatten of 100 and the REVERSE_ENTRY of 101. -/
theorem C4_tsl_reversal_witness :
    ladder_step 0 900 98.9 none none scnALadder =
      ({ scnALadder with
          current_mode := Mode.SELL
          entry_price := 98.9
          extreme_price := 98.9
          last_add_price := 98.9
          level_count := 1
          current_qty := 101 },
        [{ side := TradeType.SELL, qty := 100, tag := ReasonTag.TSL_EXIT },
          { side := TradeType.SELL, qty := 101, tag := ReasonTag.REVERSE_ENTRY }]) := by
  have h := C4_tsl_reversal scnALadder 0 900 98.9 none none rfl (by decide)
    (by norm_num) rfl (by norm_num [updated_extreme, scnALadder, max_eq_left])
    (by norm_num [updated_extreme, adverse_pct, scnALadder, max_eq_left])
    (by norm_num [scnALadder])
  rw [h.1]
  norm_num [scnALadder, ladder_sized_qty, flip_mode, entry_side, exit_side,
    LadderState.mk.injEq, LadderOrder.mk.injEq]

lemma ladder_sized_qty_capital {entry_type : EntryType} (fixed_quantity : ℤ)
    (trade_capital price : ℚ) (h : entry_type = EntryType.CAPITAL) :
    ladder_sized_qty entry_type fixed_quantity trade_capital price =
      max 1 ⌊trade_capital / price⌋ := by
  rw [h]
  rfl

/-- circuit_exit_tag only ever reports a circuit tag. -/
lemma circuit_exit_tag_cases {m : Mode} {ltp : ℚ} {ucl lcl : Option ℚ}
    {t : ReasonTag} (h : circuit_exit_tag m ltp ucl lcl = some t) :
    t = ReasonTag.UC_EXIT ∨ t = ReasonTag.LC_EXIT := by
  unfold circuit_exit_tag at h
  split at h
  · cases ucl with
    | none => simp at h
    | some u =>
      dsimp only at h
      split at h
      · exact Or.inl (Option.some.inj h).symm
      · simp at h
  · cases lcl with
    | none => simp at h
    | some l =>
      dsimp only at h
      split at h
      · exact Or.inr (Option.some.inj h).symm
      · simp at h

/-- C7: every REVERSE_ENTRY or PYRAMID_ADD order the decision step emits, and
every activation ENTRY order, carries a quantity of at least 1, and under
capital sizing that quantity is exactly floor(capital / price) clamped below
at 1 — a sizing that would come out non-positive is corrected in-engine, not
surfaced as a zero-size order. -/
theorem C7_capital_sizing (lad : LadderState) (now square_off_time : ℕ) (ltp : ℚ)
    (ucl lcl : Option ℚ) (side : TradeType) :
    (∀ o ∈ (ladder_step now square_off_time ltp ucl lcl lad).2,
      o.tag = ReasonTag.REVERSE_ENTRY ∨ o.tag = ReasonTag.PYRAMID_ADD →
        1 ≤ o.qty ∧ (lad.entry_type = EntryType.CAPITAL →
          o.qty = max 1 ⌊lad.trade_capital / ltp⌋)) ∧
    (∀ o ∈ (ladder_activate side ltp lad).2.1,
      1 ≤ o.qty ∧ (lad.entry_type = EntryType.CAPITAL →
        o.qty = max 1 ⌊lad.trade_capital / ltp⌋)) := by
  constructor
  · intro o ho htag
    have hgood : o.qty = ladder_sized_qty lad.entry_type lad.fixed_quantity
        lad.trade_capital ltp := by
      unfold ladder_step at ho
      split at ho
      · exact absurd ho (List.not_mem_nil o)
      · split at ho
        · unfold flatten_orders at ho
          split at ho
          · rcases List.mem_singleton.mp ho with rfl
            rcases htag with h | h <;> simp at h
          · exact absurd ho (List.not_mem_nil o)
        · split at ho
          · rename_i tag hcase
            unfold flatten_orders at ho
            split at ho
            · rcases List.mem_singleton.mp ho with rfl
              rcases circuit_exit_tag_cases hcase with hc | hc <;>
                rcases htag with h | h <;> simp [hc] at h
            · exact absurd ho (List.not_mem_nil o)
          · dsimp only at ho
            split at ho
            · unfold reverse_ladder at ho
              dsimp only at ho
              rcases List.mem_append.mp ho with ho | ho
              · unfold flatten_orders at ho
                split at ho
                · rcases List.mem_singleton.mp ho with rfl
                  rcases htag with h | h <;> simp at h
                · exact absurd ho (List.not_mem_nil o)
              · rcases List.mem_singleton.mp ho with rfl
                rfl
            · unfold pyramid_branch at ho
              split at ho
              · exact absurd ho (List.not_mem_nil o)
              · split at ho
                · rcases List.mem_singleton.mp ho with rfl
                  rfl
                · exact absurd ho (List.not_mem_nil o)
    rw [hgood]
    exact ⟨one_le_ladder_sized_qty _ _ _ _,
      fun hcap => ladder_sized_qty_capital _ _ _ hcap⟩
  · intro o ho
    have hgood : o.qty = ladder_sized_qty lad.entry_type lad.fixed_quantity
        lad.trade_capital ltp := by
      unfold ladder_activate at ho
      split at ho
      · exact absurd ho (List.not_mem_nil o)
      · rcases List.mem_singleton.mp ho with rfl
        rfl
    rw [hgood]
    exact ⟨one_le_ladder_sized_qty _ _ _ _,
      fun hcap => ladder_sized_qty_capital _ _ _ hcap⟩

/-- A fresh ladder record with capital sizing of only 50: at a price of 100
the raw size floor(50 / 100) is 0 and must be clamped to 1. -/
def c7Ladder : LadderState := { trade_capital := 50 }

/-- C7 witness: activating c7Ladder at price 100 emits a single ENTRY order
whose quantity is the clamped minimum 1 = max 1 (floor (50 / 100)). -/
theorem C7_capital_sizing_witness :
    (ladder_activate TradeType.BUY 100 c7Ladder).2.1 =
      [{ side := TradeType.BUY, qty := 1, tag := ReasonTag.ENTRY }] ∧
    (1 : ℤ) = max 1 ⌊(50 : ℚ) / 100⌋ := by
  have heq : (ladder_activate TradeType.BUY 100 c7Ladder).2.1 =
      [{ side := TradeType.BUY, qty := 1, tag := ReasonTag.ENTRY }] := by
    norm_num [ladder_activate, c7Ladder, ladder_sized_qty]
  have h := (C7_capital_sizing c7Ladder 0 900 100 none none TradeType.BUY).2
    { side := TradeType.BUY, qty := 1, tag := ReasonTag.ENTRY }
    (by rw [heq]; exact List.mem_singleton_self _)
  refine ⟨heq, ?_⟩
  simpa [c7Ladder] using h.2 rfl

/-- C3: the per-ladder lock gives tick processing mutual exclusion.  From a
state where the ladder's lock is free, an acquisition attempt (the atomic
set-if-absent with expiry) succeeds and its pass runs the decision step; a
second attempt for the same ladder made before the first expires fails
immediately, and the losing pass is a pure no-op: it does not block, leaves
the ladder untouched and emits no order — so of two concurrent attempts on
the same ladder exactly the winner mutates state for that tick, and no two
passes for the same ladder run concurrently. -/
theorem C3_lock_exclusive (s : LockStore) (id now now2 ttl square_off_time : ℕ)
    (ltp ltp2 : ℚ) (ucl lcl ucl2 lcl2 : Option ℚ) (lad lad2 : LadderState)
    (hfree : lock_held s id now = false) (hin : now2 < now + ttl) :
    (try_acquire s id now ttl).1 = true ∧
    locked_tick_pass s id now ttl square_off_time ltp ucl lcl lad =
      (lock_release (try_acquire s id now ttl).2 id,
        ladder_step now square_off_time ltp ucl lcl lad) ∧
    (try_acquire (try_acquire s id now ttl).2 id now2 ttl).1 = false ∧
    locked_tick_pass (try_acquire s id now ttl).2 id now2 ttl square_off_time
        ltp2 ucl2 lcl2 lad2 = ((try_acquire s id now ttl).2, lad2, []) := by
  have hacq : try_acquire s id now ttl =
      (true, ⟨(id, now + ttl) :: s.locks.filter (fun p => decide (p.1 ≠ id))⟩) := by
    unfold try_acquire
    rw [hfree]
    simp
  have hheld2 : lock_held
      (⟨(id, now + ttl) :: s.locks.filter (fun p => decide (p.1 ≠ id))⟩ : LockStore)
      id now2 = true := by
    unfold lock_held
    simp [hin]
  have hacq2 : try_acquire
      (⟨(id, now + ttl) :: s.locks.filter (fun p => decide (p.1 ≠ id))⟩ : LockStore)
      id now2 ttl =
      (false, ⟨(id, now + ttl) :: s.locks.filter (fun p => decide (p.1 ≠ id))⟩) := by
    unfold try_acquire
    rw [hheld2]
    simp
  refine ⟨by rw [hacq], ?_, ?_, ?_⟩
  · unfold locked_tick_pass
    rw [hacq]
    simp
  · rw [hacq, hacq2]
  · unfold locked_tick_pass
    rw [hacq]
    dsimp only
    rw [hacq2]
    simp

/-- C3 witness: from the empty lock store, the pass at time 0 with ttl 2
acquires the lock for ladder 1 and runs the step, and a second attempt at
time 1 fails and is a no-op on its ladder. -/
theorem C3_lock_exclusive_witness :
    (try_acquire ⟨[]⟩ 1 0 2).1 = true ∧
    (try_acquire (try_acquire ⟨[]⟩ 1 0 2).2 1 1 2).1 = false ∧
    locked_tick_pass (try_acquire ⟨[]⟩ 1 0 2).2 1 1 2 900 100 none none
        initialLadder = ((try_acquire ⟨[]⟩ 1 0 2).2, initialLadder, []) := by
  have h := C3_lock_exclusive ⟨[]⟩ 1 0 1 2 900 100 100 none none none none
    initialLadder initialLadder (by decide) (by decide)
  exact ⟨h.1, h.2.2.1, h.2.2.2⟩

end WeWinAll
